import Mathlib
set_option maxHeartbeats 1000000

/-!
Shallow embedding of the session and account lifecycle subsystem of
`src/server/routers/auth.ts`: signup, login, logout, active-session
creation, token issuance and the cookie contract. Stores are modelled as
lists; request time, the signing environment and the per-call bcrypt
salts are explicit parameters.
-/

/-- Decimal digit to character (digits above 9 clamp, never used). -/
def dChar : Nat → Char
  | 0 => '0'
  | 1 => '1'
  | 2 => '2'
  | 3 => '3'
  | 4 => '4'
  | 5 => '5'
  | 6 => '6'
  | 7 => '7'
  | 8 => '8'
  | _ => '9'

/-- Character to decimal digit value (non-digits map to 0, never used). -/
def dVal : Char → Nat
  | '1' => 1
  | '2' => 2
  | '3' => 3
  | '4' => 4
  | '5' => 5
  | '6' => 6
  | '7' => 7
  | '8' => 8
  | '9' => 9
  | _ => 0

/-- Decimal rendering of a natural number, most significant digit first
(the JS `toString` view used inside the modelled token encoding). -/
def natDigits (n : Nat) : List Char :=
  if n = 0 then ['0'] else ((Nat.digits 10 n).map dChar).reverse

def natStr (n : Nat) : String := String.mk (natDigits n)

/-- Parse a non-empty all-digit character list back to a natural number. -/
def parseNatCh (l : List Char) : Option Nat :=
  if l = [] then none
  else if l.all Char.isDigit then some (Nat.ofDigits 10 (l.reverse.map dVal))
  else none

/-- Left-to-right split of a character list at a single separator
character — the model of the JS `String.prototype.split` with a
one-character separator. The auxiliary returns the first chunk and the
remaining chunks. -/
def splitChAux (sep : Char) : List Char → List Char × List (List Char)
  | [] => ([], [])
  | c :: rest =>
    let r := splitChAux sep rest
    if c = sep then ([], r.1 :: r.2) else (c :: r.1, r.2)

def splitCh (sep : Char) (l : List Char) : List (List Char) :=
  (splitChAux sep l).1 :: (splitChAux sep l).2

/-- Left-to-right split of a character list at the two-character
separator of a semicolon followed by a space — the model of the JS
`split` at that separator used by the cookie parsing. -/
def splitSemiSpAux : List Char → List Char × List (List Char)
  | [] => ([], [])
  | c :: rest =>
    let r := splitSemiSpAux rest
    if c = ';' then
      match r.1 with
      | ' ' :: h2 => ([], h2 :: r.2)
      | _ => (c :: r.1, r.2)
    else (c :: r.1, r.2)

def splitSemiSp (l : List Char) : List (List Char) :=
  (splitSemiSpAux l).1 :: (splitSemiSpAux l).2

/-- Drop an expected leading character sequence, the model of a JS
`startsWith` check followed by taking the remainder. -/
def dropPre : List Char → List Char → Option (List Char)
  | [], l => some l
  | _ :: _, [] => none
  | p :: ps, c :: cs => if p = c then dropPre ps cs else none

/-- Whether a character list starts with the given sequence, the model
of the JS `startsWith`. -/
def hasPre (p l : List Char) : Bool :=
  (dropPre p l).isSome

/-!
The credential hasher and the token issuer. The hasher (`bcryptjs`) and
the signature inside the token (`jsonwebtoken`, HS256) are third-party
collaborators; their contracts are taken from the specification.
-/

/-- Modelled from the spec: the Credential Hasher collaborator
(bcryptjs, not part of the sources) — a salted adaptive one-way hash
`hash(secret, costFactor)` that draws a fresh random salt on every call;
the salt is an explicit parameter here, and the digest is modelled as
the triple of its determining inputs, since only its equality and
verification behaviour are observable in this embedding. -/
structure HashedSecret where
  secret : String
  cost : Nat
  salt : Nat
deriving Repr, DecidableEq

/-- `bcrypt.hash(secret, cost)` at a given per-call random salt. -/
def bcryptHash (secret : String) (cost : Nat) (salt : Nat) : HashedSecret :=
  { secret := secret, cost := cost, salt := salt }

/-- `bcrypt.compare(secret, hashed)`: does the candidate secret verify
against the stored digest? -/
def bcryptCompare (candidate : String) (hashed : HashedSecret) : Bool :=
  candidate == hashed.secret

/-- The signing environment: `process.env.JWT_SECRET`, absent when the
variable is unset. -/
structure Env where
  jwtSecret : Option String
deriving Repr, DecidableEq

/-- `process.env.JWT_SECRET || "temporary-secret-for-interview"`: the JS
or-else also replaces an empty string, which is falsy. -/
def resolvedSecret (env : Env) : String :=
  match env.jwtSecret with
  | none => "temporary-secret-for-interview"
  | some s => if s = "" then "temporary-secret-for-interview" else s

/-- Digit rendering of a character list, used by the modelled token
signature. -/
def sigChars : List Char → List Char
  | [] => []
  | c :: cs => natDigits c.toNat ++ sigChars cs

/-- Modelled from the spec: the signature of the Token Issuer
(jsonwebtoken HS256, not part of the sources) — a tamper-evident,
deterministic digest of the secret and the payload claims, rendered
with decimal digit characters only (real HMAC output is base64url). -/
def sigOf (secret : String) (uid exp : Nat) : List Char :=
  natDigits uid ++ natDigits exp ++ natDigits secret.length
    ++ sigChars secret.data

/-- The rendered token: user id claim, expiry claim (seconds) and
signature, dot-separated — the shape of `jwt.sign({ userId }, secret)`
output. -/
def mkJwt (uid exp : Nat) (secret : String) : String :=
  natStr uid ++ "." ++ natStr exp ++ "." ++ String.mk (sigOf secret uid exp)

/-- `jwt.sign({ userId }, secret, { expiresIn: "24h" })` at issuance
time `nowMs` (milliseconds): the expiry claim is the issuance time in
seconds plus 24 hours. -/
def jwtSign (uid : Nat) (secret : String) (nowMs : Nat) : String :=
  mkJwt uid (nowMs / 1000 + 24 * 60 * 60) secret

/-- `generateSecureToken(userId)` in `auth.ts`. -/
def generateSecureToken (env : Env) (nowMs : Nat) (userId : Nat) : String :=
  jwtSign userId (resolvedSecret env) nowMs

/-- Decode a rendered token into its user id claim, expiry claim and
raw signature chunk. -/
def decodeJwt (t : String) : Option (Nat × Nat × List Char) :=
  match splitCh '.' t.data with
  | [a, b, c] =>
    match parseNatCh a, parseNatCh b with
    | some uid, some exp => some (uid, exp, c)
    | _, _ => none
  | _ => none

/-- `jwt.verify`: decode, check the signature under the secret, and
reject a token whose expiry claim has passed at the checking time. On
success return the embedded user id claim. -/
def verifyJwt (secret : String) (t : String) (nowMs : Nat) : Option Nat :=
  match decodeJwt t with
  | some (uid, exp, sg) =>
    if sg = sigOf secret uid exp ∧ nowMs / 1000 < exp then some uid else none
  | none => none

/-!
Data model and stores. The drizzle schema module (`@/lib/db/schema`) is
not among the sources; per the spec the User Store is unique-by-email
persistence with an opaque numeric id, and the Session Store maps a user
to session rows of user reference, token and expiry. `expiresAt` is kept
as a millisecond timestamp (the code serialises it with `toISOString`).
-/

structure User where
  id : Nat
  email : String
  password : HashedSecret
  firstName : String
  lastName : String
  phoneNumber : String
  dateOfBirth : String
  ssn : HashedSecret
  address : String
  city : String
  state : String
  zipCode : String
deriving Repr, DecidableEq

structure Session where
  userId : Nat
  token : String
  expiresAt : Nat
deriving Repr, DecidableEq

/-- The persistent stores plus the autoincrement counter the User Store
uses for fresh ids. -/
structure DB where
  users : List User
  sessions : List Session
  nextUserId : Nat
deriving Repr, DecidableEq

inductive ErrCode where
  | CONFLICT
  | UNAUTHORIZED
  | INTERNAL_SERVER_ERROR
  | BAD_REQUEST
deriving Repr, DecidableEq

structure TRPCError where
  code : ErrCode
  message : String
deriving Repr, DecidableEq

/-- The raw fields of the signup request body, before zod validation. -/
structure SignupInput where
  email : String
  password : String
  firstName : String
  lastName : String
  phoneNumber : String
  dateOfBirth : String
  ssn : String
  address : String
  city : String
  state : String
  zipCode : String
deriving Repr, DecidableEq

/-- Whitespace trim at both ends, the model of the JS `trim` zod
applies to the email. -/
def trimCh (l : List Char) : List Char :=
  ((l.dropWhile Char.isWhitespace).reverse.dropWhile Char.isWhitespace).reverse

def trimStr (s : String) : String := String.mk (trimCh s.data)

/-- Character-wise lowercasing, the model of `toLowerCase`. -/
def toLowerStr (s : String) : String := String.mk (s.data.map Char.toLower)

/-- Character-wise uppercasing, the model of `toUpperCase`. -/
def toUpperStr (s : String) : String := String.mk (s.data.map Char.toUpper)

/-- Coarse model of zod's `.email()` format check (its RFC-flavoured
regex is library code and no claim depends on its precision): one
at-sign with a non-empty local part and a dotted non-empty domain. -/
def emailFormatOk (s : String) : Bool :=
  match splitCh '@' s.data with
  | [a, b] => !a.isEmpty && !b.isEmpty && b.contains '.'
  | _ => false

/-- The zod regex for the phone number: an optional leading plus then
10 to 15 digits. -/
def phoneOk (s : String) : Bool :=
  let ds := match s.data with
    | '+' :: r => r
    | r => r
  ds.all Char.isDigit && decide (10 ≤ ds.length) && decide (ds.length ≤ 15)

/-- The zod regex for the SSN: exactly 9 digits. -/
def ssnOk (s : String) : Bool :=
  s.data.all Char.isDigit && decide (s.data.length = 9)

/-- The zod regex for the ZIP code: exactly 5 digits. -/
def zipOk (s : String) : Bool :=
  s.data.all Char.isDigit && decide (s.data.length = 5)

/-- The zod input schema of `signup`: the email is trimmed, checked for
format, then lowercased; the password needs at least 8 characters, names
and address fields must be non-empty, the state code is two letters and
is uppercased, and phone, SSN and ZIP match their patterns. Returns the
transformed input when every check passes. -/
def validateSignup (raw : SignupInput) : Option SignupInput :=
  let e := trimStr raw.email
  if emailFormatOk e = true ∧ 8 ≤ raw.password.length
      ∧ 1 ≤ raw.firstName.length ∧ 1 ≤ raw.lastName.length
      ∧ phoneOk raw.phoneNumber = true
      ∧ ssnOk raw.ssn = true
      ∧ 1 ≤ raw.address.length ∧ 1 ≤ raw.city.length
      ∧ raw.state.length = 2
      ∧ zipOk raw.zipCode = true then
    some { raw with email := toLowerStr e, state := toUpperStr raw.state }
  else none

/-- The zod input schema of `login`: only an email format check, with no
trimming or lowercasing. -/
def validateLogin (email : String) : Bool :=
  emailFormatOk email

/-- The user payload of the signup response:
`{ ...finalUser, password: undefined, ssn: undefined }`. -/
structure PublicUser where
  id : Nat
  email : String
  password : Option HashedSecret
  firstName : String
  lastName : String
  phoneNumber : String
  dateOfBirth : String
  ssn : Option HashedSecret
  address : String
  city : String
  state : String
  zipCode : String
deriving Repr, DecidableEq

/-- Spread of a user row with password and ssn set to `undefined`
(signup response). -/
def stripBoth (u : User) : PublicUser :=
  { id := u.id, email := u.email, password := none,
    firstName := u.firstName, lastName := u.lastName,
    phoneNumber := u.phoneNumber, dateOfBirth := u.dateOfBirth,
    ssn := none, address := u.address, city := u.city,
    state := u.state, zipCode := u.zipCode }

/-- Spread of a user row with only the password set to `undefined`
(login response); the ssn hash is carried over unchanged. -/
def stripPasswordOnly (u : User) : PublicUser :=
  { id := u.id, email := u.email, password := none,
    firstName := u.firstName, lastName := u.lastName,
    phoneNumber := u.phoneNumber, dateOfBirth := u.dateOfBirth,
    ssn := some u.ssn, address := u.address, city := u.city,
    state := u.state, zipCode := u.zipCode }

/-- The `Set-Cookie` header written by signup and login. -/
def sessionCookieSet (t : String) : String :=
  "session=" ++ t ++ "; Path=/; HttpOnly; SameSite=Strict; Max-Age=604800"

/-- The `Set-Cookie` header written by logout. -/
def clearCookieSet : String :=
  "session=; Path=/; HttpOnly; SameSite=Strict; Max-Age=0"

/-- A successful signup or login response: the stripped user payload,
the raw session token, and the `Set-Cookie` header written on the
response. -/
structure AuthResult where
  user : PublicUser
  sessionToken : String
  setCookie : String
deriving Repr, DecidableEq

structure LogoutResult where
  success : Bool
  message : String
  setCookie : String
deriving Repr, DecidableEq

/-- `createActiveSession(userId)`: issue a token, delete every session
row of this user, then insert the row with the token and an expiry 24
hours out (milliseconds). -/
def createActiveSession (env : Env) (nowMs : Nat) (userId : Nat)
    (db : DB) : String × DB :=
  let sessionToken := generateSecureToken env nowMs userId
  let afterDelete := db.sessions.filter (fun s => s.userId != userId)
  (sessionToken,
    { db with sessions := afterDelete ++
        [{ userId := userId, token := sessionToken,
           expiresAt := nowMs + 24 * 60 * 60 * 1000 }] })

/-- `deleteSessionByToken(token)`: delete every session row whose token
equals the given one. -/
def deleteSessionByToken (token : String) (db : DB) : DB :=
  { db with sessions := db.sessions.filter (fun s => s.token != token) }

/-- The body of the `signup` mutation after zod validation: conflict
check by normalized email, hash password (cost 10) and SSN (cost 9),
insert the user row, create the active session, set the cookie, return
the stripped user and the raw token. A thrown error is the `.error`
result; the store as already mutated at the throw point is returned
alongside (nothing is rolled back). -/
def signupCore (env : Env) (nowMs saltP saltS : Nat) (input : SignupInput)
    (db : DB) : Except TRPCError AuthResult × DB :=
  match db.users.find? (fun u => u.email == input.email) with
  | some _ => (.error ⟨.CONFLICT, "User already exists"⟩, db)
  | none =>
    let hashedPassword := bcryptHash input.password 10 saltP
    let hashedSsn := bcryptHash input.ssn 9 saltS
    let newUser : User :=
      { id := db.nextUserId, email := input.email,
        password := hashedPassword, firstName := input.firstName,
        lastName := input.lastName, phoneNumber := input.phoneNumber,
        dateOfBirth := input.dateOfBirth, ssn := hashedSsn,
        address := input.address, city := input.city,
        state := input.state, zipCode := input.zipCode }
    let db1 : DB := { db with users := db.users ++ [newUser],
                              nextUserId := db.nextUserId + 1 }
    let r := createActiveSession env nowMs newUser.id db1
    (.ok { user := stripBoth newUser, sessionToken := r.1,
           setCookie := sessionCookieSet r.1 }, r.2)

/-- The `signup` mutation: zod validation then the handler body. -/
def signup (env : Env) (nowMs saltP saltS : Nat) (raw : SignupInput)
    (db : DB) : Except TRPCError AuthResult × DB :=
  match validateSignup raw with
  | none => (.error ⟨.BAD_REQUEST, "Invalid input"⟩, db)
  | some input => signupCore env nowMs saltP saltS input db

/-- The `login` mutation: zod validation, lookup by email, bcrypt
compare, create the active session, set the cookie, return the user
with the password stripped and the raw token. -/
def login (env : Env) (nowMs : Nat) (email password : String)
    (db : DB) : Except TRPCError AuthResult × DB :=
  if validateLogin email then
    match db.users.find? (fun u => u.email == email) with
    | none => (.error ⟨.UNAUTHORIZED, "Invalid credentials"⟩, db)
    | some user =>
      if bcryptCompare password user.password then
        let r := createActiveSession env nowMs user.id db
        (.ok { user := stripPasswordOnly user, sessionToken := r.1,
               setCookie := sessionCookieSet r.1 }, r.2)
      else (.error ⟨.UNAUTHORIZED, "Invalid credentials"⟩, db)
  else (.error ⟨.BAD_REQUEST, "Invalid input"⟩, db)

/-- The two transport shapes the logout handler supports: a pre-parsed
cookie mapping (`ctx.req.cookies`, App Router) or a raw cookie header
string (Pages Router). -/
structure LogoutRequest where
  cookies : Option (List (String × String))
  cookieHeader : Option String
deriving Repr, DecidableEq

/-- Token extraction in `logout`: the `session` entry of the pre-parsed
cookie map when one exists, otherwise manual parsing of the raw header —
split at the separator, find the chunk starting with the cookie name,
take what follows the first equals sign. -/
def extractLogoutToken (req : LogoutRequest) : Option String :=
  match req.cookies with
  | some jar => jar.lookup "session"
  | none =>
    match req.cookieHeader with
    | some h =>
      match (splitSemiSp h.data).find? (fun c => hasPre "session=".data c) with
      | some sc => ((splitCh '=' sc)[1]?).map String.mk
      | none => none
    | none => none

/-- The `logout` mutation. `storeThrows` models the store deletion
throwing; the handler catches that error, and in every case clears the
cookie and reports success. An extracted empty-string token is falsy in
JS, so no deletion is attempted for it. -/
def logout (storeThrows : Bool) (req : LogoutRequest) (db : DB) :
    LogoutResult × DB :=
  let token := extractLogoutToken req
  let db2 :=
    match token with
    | some t =>
      if t = "" then db
      else if storeThrows then db
      else deleteSessionByToken t db
    | none => db
  ({ success := true, message := "Logged out successfully",
     setCookie := clearCookieSet }, db2)

/-- The `; `-separated chunks of a `Set-Cookie` header value. -/
def setCookieParts (c : String) : List (List Char) :=
  splitSemiSp c.data

/-- The numeric `Max-Age` attribute of a `Set-Cookie` header value, when
present. -/
def setCookieMaxAge (c : String) : Option Nat :=
  (setCookieParts c).findSome? (fun p =>
    match dropPre "Max-Age=".data p with
    | some v => parseNatCh v
    | none => none)

/-- The user row inserted by signup: the validated input with the
password hashed at cost 10 and the SSN hashed at cost 9, under the
store's next fresh id. -/
def signupNewUser (input : SignupInput) (db : DB) (saltP saltS : Nat) : User :=
  { id := db.nextUserId, email := input.email,
    password := bcryptHash input.password 10 saltP,
    firstName := input.firstName, lastName := input.lastName,
    phoneNumber := input.phoneNumber, dateOfBirth := input.dateOfBirth,
    ssn := bcryptHash input.ssn 9 saltS, address := input.address,
    city := input.city, state := input.state, zipCode := input.zipCode }

/-- Concrete fresh-signup raw input for witnesses. -/
def exRaw2 : SignupInput :=
  { email := "Fresh@Example.com", password := "password1", firstName := "J",
    lastName := "D", phoneNumber := "1234567890",
    dateOfBirth := "2000-01-01", ssn := "123456789", address := "1 St",
    city := "X", state := "ny", zipCode := "12345" }

/-- `exRaw2` after the zod transforms. -/
def exInput2 : SignupInput :=
  { exRaw2 with email := "fresh@example.com", state := "NY" }

/-- An empty store. -/
def exDb0 : DB := { users := [], sessions := [], nextUserId := 1 }

/-- A store with one user whose password digest verifies only the
password it was hashed from. -/
def exUser1 : User :=
  { id := 1, email := "a@b.co", password := ⟨"password1", 10, 0⟩,
    firstName := "J", lastName := "D", phoneNumber := "1234567890",
    dateOfBirth := "2000-01-01", ssn := ⟨"123456789", 9, 0⟩,
    address := "1 St", city := "X", state := "CA", zipCode := "12345" }

def exDb1 : DB := { users := [exUser1], sessions := [], nextUserId := 2 }

/-- A session store holding rows for two different tokens. -/
def exDb2 : DB :=
  { users := [],
    sessions := [{ userId := 1, token := "42", expiresAt := 5 },
                 { userId := 2, token := "99", expiresAt := 5 }],
    nextUserId := 3 }

theorem dVal_dChar (d : Nat) (h : d < 10) : dVal (dChar d) = d := by
  interval_cases d <;> rfl

theorem dChar_isDigit (d : Nat) (h : d < 10) : (dChar d).isDigit = true := by
  interval_cases d <;> rfl

theorem natDigits_isDigit (n : Nat) : ∀ c ∈ natDigits n, c.isDigit = true := by
  intro c hc
  unfold natDigits at hc
  by_cases h : n = 0
  · simp [h] at hc
    simp [hc]
  · simp [h, List.mem_reverse, List.mem_map] at hc
    obtain ⟨d, hd, rfl⟩ := hc
    exact dChar_isDigit d (Nat.digits_lt_base (by norm_num) hd)

theorem natDigits_ne_nil (n : Nat) : natDigits n ≠ [] := by
  unfold natDigits
  by_cases h : n = 0
  · simp [h]
  · simp [h, Nat.digits_ne_nil_iff_ne_zero]

theorem parseNatCh_natDigits (n : Nat) : parseNatCh (natDigits n) = some n := by
  by_cases h : n = 0
  · subst h; rfl
  · unfold parseNatCh
    rw [if_neg (natDigits_ne_nil n)]
    rw [if_pos (by
      rw [List.all_eq_true]
      intro c hc
      exact natDigits_isDigit n c hc)]
    unfold natDigits
    rw [if_neg h, List.reverse_reverse, List.map_map]
    have hmap2 : (Nat.digits 10 n).map (dVal ∘ dChar)
        = (Nat.digits 10 n).map id :=
      List.map_congr_left
        (fun d hd => dVal_dChar d (Nat.digits_lt_base (by norm_num) hd))
    rw [hmap2, List.map_id, Nat.ofDigits_digits]

theorem splitChAux_sep (sep : Char) (l : List Char) :
    splitChAux sep (sep :: l) = ([], (splitChAux sep l).1 :: (splitChAux sep l).2) := by
  simp [splitChAux]

theorem splitChAux_no_sep (sep : Char) (a l : List Char) (ha : ∀ c ∈ a, c ≠ sep) :
    splitChAux sep (a ++ l) = (a ++ (splitChAux sep l).1, (splitChAux sep l).2) := by
  induction a with
  | nil => simp
  | cons c cs ih =>
    have hc : c ≠ sep := ha c (by simp)
    have ihs := ih (fun x hx => ha x (by simp [hx]))
    simp [splitChAux, ihs, hc]

theorem splitCh_no_sep (sep : Char) (a : List Char) (ha : ∀ c ∈ a, c ≠ sep) :
    splitCh sep a = [a] := by
  have := splitChAux_no_sep sep a [] ha
  simp [splitChAux] at this
  simp [splitCh, this]

theorem splitCh_append (sep : Char) (a b : List Char) (ha : ∀ c ∈ a, c ≠ sep) :
    splitCh sep (a ++ sep :: b) = a :: splitCh sep b := by
  have h1 := splitChAux_no_sep sep a (sep :: b) ha
  have h2 := splitChAux_sep sep b
  simp [splitCh, h1, h2]

theorem splitSemiSpAux_no_semi (a l : List Char) (ha : ∀ c ∈ a, c ≠ ';') :
    splitSemiSpAux (a ++ l) = (a ++ (splitSemiSpAux l).1, (splitSemiSpAux l).2) := by
  induction a with
  | nil => simp
  | cons c cs ih =>
    have hc : c ≠ ';' := ha c (by simp)
    have ihs := ih (fun x hx => ha x (by simp [hx]))
    simp [splitSemiSpAux, ihs, hc]

theorem splitSemiSpAux_sep (l : List Char) :
    splitSemiSpAux (';' :: ' ' :: l) =
      ([], (splitSemiSpAux l).1 :: (splitSemiSpAux l).2) := by
  simp [splitSemiSpAux]

theorem splitSemiSp_no_semi (a : List Char) (ha : ∀ c ∈ a, c ≠ ';') :
    splitSemiSp a = [a] := by
  have := splitSemiSpAux_no_semi a [] ha
  simp [splitSemiSpAux] at this
  simp [splitSemiSp, this]

theorem splitSemiSp_append (a b : List Char) (ha : ∀ c ∈ a, c ≠ ';') :
    splitSemiSp (a ++ ';' :: ' ' :: b) = a :: splitSemiSp b := by
  have h1 := splitSemiSpAux_no_semi a (';' :: ' ' :: b) ha
  have h2 := splitSemiSpAux_sep b
  simp [splitSemiSp, h1, h2]

theorem dropPre_append (p l : List Char) : dropPre p (p ++ l) = some l := by
  induction p with
  | nil => rfl
  | cons c cs ih => simp [dropPre, ih]

theorem hasPre_append (p l : List Char) : hasPre p (p ++ l) = true := by
  simp [hasPre, dropPre_append]

theorem sigChars_isDigit (l : List Char) :
    ∀ c ∈ sigChars l, c.isDigit = true := by
  induction l with
  | nil => intro c hc; simp [sigChars] at hc
  | cons x xs ih =>
    intro c hc
    simp only [sigChars, List.mem_append] at hc
    rcases hc with h | h
    · exact natDigits_isDigit _ c h
    · exact ih c h

theorem sigOf_isDigit (secret : String) (uid exp : Nat) :
    ∀ c ∈ sigOf secret uid exp, c.isDigit = true := by
  intro c hc
  simp only [sigOf, List.mem_append] at hc
  rcases hc with ((h | h) | h) | h
  · exact natDigits_isDigit _ c h
  · exact natDigits_isDigit _ c h
  · exact natDigits_isDigit _ c h
  · exact sigChars_isDigit _ c h

theorem mkJwt_data (uid exp : Nat) (secret : String) :
    (mkJwt uid exp secret).data =
      natDigits uid ++ '.' ::
        (natDigits exp ++ '.' :: sigOf secret uid exp) := by
  simp only [mkJwt, natStr, String.data_append]
  simp only [List.append_assoc, List.singleton_append, List.cons_append,
    List.nil_append]

theorem mkJwt_chars (uid exp : Nat) (secret : String) :
    ∀ c ∈ (mkJwt uid exp secret).data, c.isDigit = true ∨ c = '.' := by
  intro c hc
  rw [mkJwt_data] at hc
  simp only [List.mem_append, List.mem_cons] at hc
  rcases hc with h | h | h | h | h
  · exact Or.inl (natDigits_isDigit _ c h)
  · exact Or.inr h
  · exact Or.inl (natDigits_isDigit _ c h)
  · exact Or.inr h
  · exact Or.inl (sigOf_isDigit _ _ _ c h)

theorem mkJwt_ne_empty (uid exp : Nat) (secret : String) :
    mkJwt uid exp secret ≠ "" := by
  intro h
  have hd : (mkJwt uid exp secret).data = [] := by rw [h]
  rw [mkJwt_data] at hd
  cases hm : natDigits uid with
  | nil => exact natDigits_ne_nil uid hm
  | cons x xs => rw [hm] at hd; simp at hd

theorem decodeJwt_mkJwt (uid exp : Nat) (secret : String) :
    decodeJwt (mkJwt uid exp secret) = some (uid, exp, sigOf secret uid exp) := by
  have hnd : ∀ n : Nat, ∀ c ∈ natDigits n, c ≠ '.' := by
    intro n c hc hdot
    have := natDigits_isDigit n c hc
    rw [hdot] at this
    simp [Char.isDigit] at this
  unfold decodeJwt
  rw [mkJwt_data, splitCh_append '.' _ _ (hnd uid),
    splitCh_append '.' _ _ (hnd exp), splitCh_no_sep '.' _ (by
      intro c hc hdot
      have := sigOf_isDigit secret uid exp c hc
      rw [hdot] at this
      simp [Char.isDigit] at this)]
  simp [parseNatCh_natDigits]

theorem verifyJwt_mkJwt (uid exp : Nat) (secret : String) (nowMs : Nat)
    (h : nowMs / 1000 < exp) :
    verifyJwt secret (mkJwt uid exp secret) nowMs = some uid := by
  unfold verifyJwt
  rw [decodeJwt_mkJwt]
  simp [h]

/-!
Claim theorems.
-/

/-- C1: for every user id and every prior state of the session store,
`createActiveSession(userId)` first deletes every existing session row
for that user id and then inserts exactly one new row carrying the
freshly issued token and an expiry 24 hours from now, so afterwards the
store holds at most one session row for that user (exactly one: the new
row), and the user store is untouched. -/
theorem createActiveSession_at_most_one_session
    (env : Env) (nowMs userId : Nat) (db : DB) :
    (createActiveSession env nowMs userId db).2.sessions
        = db.sessions.filter (fun s => s.userId != userId)
          ++ [{ userId := userId,
                token := generateSecureToken env nowMs userId,
                expiresAt := nowMs + 24 * 60 * 60 * 1000 }]
      ∧ (createActiveSession env nowMs userId db).2.users = db.users
      ∧ ((createActiveSession env nowMs userId db).2.sessions.filter
            (fun s => s.userId == userId)).length = 1
      ∧ (createActiveSession env nowMs userId db).1
          = generateSecureToken env nowMs userId := by
  refine ⟨rfl, rfl, ?_, rfl⟩
  simp only [createActiveSession, List.filter_append, List.filter_filter]
  have h1 : db.sessions.filter
      (fun a => (a.userId == userId) && (a.userId != userId)) = [] := by
    apply List.filter_eq_nil_iff.mpr
    intro s hs
    by_cases h : s.userId = userId <;> simp [h]
  rw [h1]
  simp

theorem validateSignup_email (raw input : SignupInput)
    (h : validateSignup raw = some input) :
    input.email = toLowerStr (trimStr raw.email) := by
  simp only [validateSignup] at h
  split at h
  · cases h
    rfl
  · cases h

/-- C2: for every signup input whose trimmed, lowercased email equals
the email of an already-stored user, signup fails with a CONFLICT error
whose message is "User already exists" and performs no writes: the
stores are returned exactly as they were, so no user row is inserted
and no session is created. -/
theorem signup_conflict_no_writes
    (env : Env) (nowMs saltP saltS : Nat) (raw input : SignupInput)
    (db : DB) (u : User)
    (hval : validateSignup raw = some input)
    (hu : u ∈ db.users)
    (hemail : u.email = toLowerStr (trimStr raw.email)) :
    signup env nowMs saltP saltS raw db
      = (.error ⟨.CONFLICT, "User already exists"⟩, db) := by
  have he : input.email = toLowerStr (trimStr raw.email) :=
    validateSignup_email raw input hval
  have hs : signup env nowMs saltP saltS raw db
      = signupCore env nowMs saltP saltS input db := by
    unfold signup
    rw [hval]
  rw [hs]
  have hfind : (db.users.find? (fun v => v.email == input.email)).isSome := by
    rw [List.find?_isSome]
    exact ⟨u, hu, by rw [he, ← hemail]; simp⟩
  obtain ⟨w, hw⟩ := Option.isSome_iff_exists.mp hfind
  unfold signupCore
  rw [hw]

/-- Witness for C2 at a concrete store and input: the second signup with
an email differing only in case and surrounding spaces conflicts. -/
theorem signup_conflict_no_writes_witness :
    signup ⟨none⟩ 0 0 0
        { email := " A@b.co ", password := "password1", firstName := "J",
          lastName := "D", phoneNumber := "1234567890",
          dateOfBirth := "2000-01-01", ssn := "123456789",
          address := "1 St", city := "X", state := "ca",
          zipCode := "12345" }
        { users := [{ id := 1, email := "a@b.co",
                      password := ⟨"password1", 10, 0⟩, firstName := "J",
                      lastName := "D", phoneNumber := "1234567890",
                      dateOfBirth := "2000-01-01", ssn := ⟨"123456789", 9, 0⟩,
                      address := "1 St", city := "X", state := "CA",
                      zipCode := "12345" }],
          sessions := [], nextUserId := 2 }
      = (.error ⟨.CONFLICT, "User already exists"⟩,
         { users := [{ id := 1, email := "a@b.co",
                       password := ⟨"password1", 10, 0⟩, firstName := "J",
                       lastName := "D", phoneNumber := "1234567890",
                       dateOfBirth := "2000-01-01", ssn := ⟨"123456789", 9, 0⟩,
                       address := "1 St", city := "X", state := "CA",
                       zipCode := "12345" }],
           sessions := [], nextUserId := 2 }) := by
  exact signup_conflict_no_writes ⟨none⟩ 0 0 0 _
    { email := "a@b.co", password := "password1", firstName := "J",
      lastName := "D", phoneNumber := "1234567890",
      dateOfBirth := "2000-01-01", ssn := "123456789",
      address := "1 St", city := "X", state := "CA", zipCode := "12345" }
    _
    { id := 1, email := "a@b.co", password := ⟨"password1", 10, 0⟩,
      firstName := "J", lastName := "D", phoneNumber := "1234567890",
      dateOfBirth := "2000-01-01", ssn := ⟨"123456789", 9, 0⟩,
      address := "1 St", city := "X", state := "CA", zipCode := "12345" }
    (by decide) (List.mem_cons_self _ _) (by decide)

theorem filter_eq_userId_append (uid : Nat) (l : List Session) (s : Session)
    (hs : s.userId = uid) :
    (l.filter (fun x => x.userId != uid) ++ [s]).filter
        (fun x => x.userId == uid) = [s] := by
  rw [List.filter_append, List.filter_filter]
  have h1 : l.filter (fun a => (a.userId == uid) && (a.userId != uid)) = [] := by
    apply List.filter_eq_nil_iff.mpr
    intro x hx
    by_cases h : x.userId = uid <;> simp [h]
  rw [h1]
  simp [hs]

/-- C3: for every valid signup input with a fresh email, signup inserts
exactly one user row whose password and ssn fields are the hasher's
output on the inputs (costs 10 and 9), creates exactly one session row
for the new user id, and returns the created user with password and ssn
stripped together with the raw session token. -/
theorem signup_fresh_creates
    (env : Env) (nowMs saltP saltS : Nat) (raw input : SignupInput)
    (db : DB)
    (hval : validateSignup raw = some input)
    (hfresh : ∀ u ∈ db.users, u.email ≠ input.email) :
    signup env nowMs saltP saltS raw db
      = (.ok { user := stripBoth (signupNewUser input db saltP saltS),
               sessionToken := generateSecureToken env nowMs db.nextUserId,
               setCookie := sessionCookieSet
                 (generateSecureToken env nowMs db.nextUserId) },
         { users := db.users ++ [signupNewUser input db saltP saltS],
           sessions := db.sessions.filter (fun s => s.userId != db.nextUserId)
             ++ [{ userId := db.nextUserId,
                   token := generateSecureToken env nowMs db.nextUserId,
                   expiresAt := nowMs + 24 * 60 * 60 * 1000 }],
           nextUserId := db.nextUserId + 1 })
      ∧ (signupNewUser input db saltP saltS).password
          = bcryptHash input.password 10 saltP
      ∧ (signupNewUser input db saltP saltS).ssn
          = bcryptHash input.ssn 9 saltS
      ∧ (stripBoth (signupNewUser input db saltP saltS)).password = none
      ∧ (stripBoth (signupNewUser input db saltP saltS)).ssn = none
      ∧ ((signup env nowMs saltP saltS raw db).2.sessions.filter
           (fun s => s.userId == db.nextUserId)).length = 1 := by
  have hs : signup env nowMs saltP saltS raw db
      = signupCore env nowMs saltP saltS input db := by
    unfold signup
    rw [hval]
  have hnone : db.users.find? (fun u => u.email == input.email) = none :=
    List.find?_eq_none.mpr (fun x hx => by simp [hfresh x hx])
  have hcore : signupCore env nowMs saltP saltS input db
      = (.ok { user := stripBoth (signupNewUser input db saltP saltS),
               sessionToken := generateSecureToken env nowMs db.nextUserId,
               setCookie := sessionCookieSet
                 (generateSecureToken env nowMs db.nextUserId) },
         { users := db.users ++ [signupNewUser input db saltP saltS],
           sessions := db.sessions.filter (fun s => s.userId != db.nextUserId)
             ++ [{ userId := db.nextUserId,
                   token := generateSecureToken env nowMs db.nextUserId,
                   expiresAt := nowMs + 24 * 60 * 60 * 1000 }],
           nextUserId := db.nextUserId + 1 }) := by
    unfold signupCore
    rw [hnone]
    rfl
  refine ⟨by rw [hs, hcore], rfl, rfl, rfl, rfl, ?_⟩
  rw [hs, hcore]
  rw [filter_eq_userId_append db.nextUserId db.sessions _ rfl]
  rfl

/-- Witness for C3 at a concrete fresh signup against an empty store. -/
theorem signup_fresh_creates_witness :
    signup ⟨none⟩ 0 0 0 exRaw2 exDb0
      = (.ok { user := stripBoth (signupNewUser exInput2 exDb0 0 0),
               sessionToken := generateSecureToken ⟨none⟩ 0 1,
               setCookie := sessionCookieSet (generateSecureToken ⟨none⟩ 0 1) },
         { users := [signupNewUser exInput2 exDb0 0 0],
           sessions := [{ userId := 1, token := generateSecureToken ⟨none⟩ 0 1,
                          expiresAt := 86400000 }],
           nextUserId := 2 })
      ∧ (stripBoth (signupNewUser exInput2 exDb0 0 0)).password = none
      ∧ (stripBoth (signupNewUser exInput2 exDb0 0 0)).ssn = none := by
  have h := signup_fresh_creates ⟨none⟩ 0 0 0 exRaw2 exInput2 exDb0
    (by decide) (by decide)
  refine ⟨?_, h.2.2.2.1, h.2.2.2.2.1⟩
  rw [h.1]
  rfl

/-- C4: every failing login — unknown email or wrong password — yields
an UNAUTHORIZED error with the identical message "Invalid credentials"
in both cases, and leaves the stores untouched. -/
theorem login_invalid_credentials
    (env : Env) (nowMs : Nat) (email password : String) (db : DB)
    (hv : validateLogin email = true) :
    (db.users.find? (fun u => u.email == email) = none →
        login env nowMs email password db
          = (.error ⟨.UNAUTHORIZED, "Invalid credentials"⟩, db))
    ∧ (∀ u, db.users.find? (fun u => u.email == email) = some u →
        bcryptCompare password u.password = false →
        login env nowMs email password db
          = (.error ⟨.UNAUTHORIZED, "Invalid credentials"⟩, db)) := by
  constructor
  · intro hnone
    unfold login
    rw [if_pos hv, hnone]
  · intro u hu hpw
    unfold login
    rw [if_pos hv, hu]
    simp only [hpw]
    rfl

/-- Witness for C4: a login with an unknown email and a login with a
wrong password both fail with the same error, at a concrete store. -/
theorem login_invalid_credentials_witness :
    login ⟨none⟩ 0 "no@x.co" "password1" exDb1
        = (.error ⟨.UNAUTHORIZED, "Invalid credentials"⟩, exDb1)
      ∧ login ⟨none⟩ 0 "a@b.co" "wrong-password" exDb1
        = (.error ⟨.UNAUTHORIZED, "Invalid credentials"⟩, exDb1) := by
  have h1 := login_invalid_credentials ⟨none⟩ 0 "no@x.co" "password1" exDb1
    (by decide)
  have h2 := login_invalid_credentials ⟨none⟩ 0 "a@b.co" "wrong-password"
    exDb1 (by decide)
  exact ⟨h1.1 (by decide), h2.2 exUser1 (by decide) (by decide)⟩

/-- C5: every logout — valid cookie, no cookie, stale token, or a
throwing store deletion — returns success with the message "Logged out
successfully" without throwing, and always re-sets the session cookie
with Max-Age 0. -/
theorem logout_always_succeeds (storeThrows : Bool) (req : LogoutRequest)
    (db : DB) :
    (logout storeThrows req db).1
        = { success := true, message := "Logged out successfully",
            setCookie := clearCookieSet }
      ∧ setCookieMaxAge (logout storeThrows req db).1.setCookie = some 0
      ∧ clearCookieSet
          = "session=; Path=/; HttpOnly; SameSite=Strict; Max-Age=0" := by
  refine ⟨rfl, ?_, rfl⟩
  have h : setCookieMaxAge clearCookieSet = some 0 := by decide
  exact h

theorem generateSecureToken_no_semi (env : Env) (nowMs userId : Nat) :
    ∀ c ∈ (generateSecureToken env nowMs userId).data, c ≠ ';' := by
  intro c hc h
  have hd := mkJwt_chars userId (nowMs / 1000 + 24 * 60 * 60)
    (resolvedSecret env) c hc
  subst h
  rcases hd with hd | hd
  · simp [Char.isDigit] at hd
  · cases hd

theorem generateSecureToken_no_eq (env : Env) (nowMs userId : Nat) :
    ∀ c ∈ (generateSecureToken env nowMs userId).data, c ≠ '=' := by
  intro c hc h
  have hd := mkJwt_chars userId (nowMs / 1000 + 24 * 60 * 60)
    (resolvedSecret env) c hc
  subst h
  rcases hd with hd | hd
  · simp [Char.isDigit] at hd
  · cases hd

/-- C6: the token issuer produces a signed token embedding the user id
and an expiry claim 24 hours (in seconds) after issuance; the token
verifies under the secret resolved from the environment, and when the
signing secret is unset the fixed fallback development secret
"temporary-secret-for-interview" is used instead of failing. -/
theorem generateSecureToken_contract (env : Env) (nowMs userId : Nat) :
    decodeJwt (generateSecureToken env nowMs userId)
        = some (userId, nowMs / 1000 + 24 * 60 * 60,
            sigOf (resolvedSecret env) userId (nowMs / 1000 + 24 * 60 * 60))
      ∧ verifyJwt (resolvedSecret env) (generateSecureToken env nowMs userId)
          nowMs = some userId
      ∧ resolvedSecret { jwtSecret := none }
          = "temporary-secret-for-interview" := by
  refine ⟨?_, ?_, rfl⟩
  · exact decodeJwt_mkJwt userId (nowMs / 1000 + 24 * 60 * 60)
      (resolvedSecret env)
  · exact verifyJwt_mkJwt userId (nowMs / 1000 + 24 * 60 * 60)
      (resolvedSecret env) nowMs
      (Nat.lt_add_of_pos_right (by norm_num))

theorem sessionCookieSet_parts (t : String) (ht : ∀ c ∈ t.data, c ≠ ';') :
    setCookieParts (sessionCookieSet t)
      = [("session=" ++ t).data, "Path=/".data, "HttpOnly".data,
         "SameSite=Strict".data, "Max-Age=604800".data] := by
  have hsem : ∀ c ∈ "session=".data ++ t.data, c ≠ ';' := by
    intro c hc
    rcases List.mem_append.mp hc with h | h
    · have hall : ∀ x ∈ "session=".data, x ≠ ';' := by decide
      exact hall c h
    · exact ht c h
  have h1 : (sessionCookieSet t).data
      = ("session=".data ++ t.data)
        ++ ';' :: ' ' ::
          "Path=/; HttpOnly; SameSite=Strict; Max-Age=604800".data := by
    show ("session=" ++ t
        ++ "; Path=/; HttpOnly; SameSite=Strict; Max-Age=604800").data = _
    rw [String.data_append, String.data_append]
  unfold setCookieParts
  rw [h1, splitSemiSp_append _ _ hsem]
  rw [show splitSemiSp
        ("Path=/; HttpOnly; SameSite=Strict; Max-Age=604800".data)
      = ["Path=/".data, "HttpOnly".data, "SameSite=Strict".data,
         "Max-Age=604800".data] from by decide]
  rw [String.data_append]

theorem sessionCookieSet_maxAge (t : String) (ht : ∀ c ∈ t.data, c ≠ ';') :
    setCookieMaxAge (sessionCookieSet t) = some 604800 := by
  unfold setCookieMaxAge
  rw [sessionCookieSet_parts t ht]
  have h0 : (match dropPre "Max-Age=".data (("session=" ++ t).data) with
      | some v => parseNatCh v
      | none => none) = (none : Option Nat) := by
    rw [String.data_append]
    rfl
  simp only [List.findSome?]
  rw [h0]
  decide

/-- C7: every successful signup and login sets the `session` cookie
carrying the token with attributes Path=/, HttpOnly, SameSite=Strict
and Max-Age=604800 seconds, even though the token's own embedded expiry
claim is 24 hours (in seconds) after issuance; logout sets the same
cookie with Max-Age=0. -/
theorem session_cookie_attributes
    (env : Env) (nowMs saltP saltS userId : Nat) (raw : SignupInput)
    (email password : String) (db : DB) :
    (∀ r db2, signup env nowMs saltP saltS raw db = (.ok r, db2) →
        r.setCookie = sessionCookieSet r.sessionToken)
    ∧ (∀ r db2, login env nowMs email password db = (.ok r, db2) →
        r.setCookie = sessionCookieSet r.sessionToken)
    ∧ setCookieParts (sessionCookieSet (generateSecureToken env nowMs userId))
        = [("session=" ++ generateSecureToken env nowMs userId).data,
           "Path=/".data, "HttpOnly".data, "SameSite=Strict".data,
           "Max-Age=604800".data]
    ∧ setCookieMaxAge (sessionCookieSet (generateSecureToken env nowMs userId))
        = some 604800
    ∧ decodeJwt (generateSecureToken env nowMs userId)
        = some (userId, nowMs / 1000 + 24 * 60 * 60,
            sigOf (resolvedSecret env) userId (nowMs / 1000 + 24 * 60 * 60))
    ∧ setCookieMaxAge clearCookieSet = some 0
    ∧ (∀ (st : Bool) (req : LogoutRequest) (db3 : DB),
        (logout st req db3).1.setCookie = clearCookieSet) := by
  refine ⟨?_, ?_,
    sessionCookieSet_parts _ (generateSecureToken_no_semi env nowMs userId),
    sessionCookieSet_maxAge _ (generateSecureToken_no_semi env nowMs userId),
    decodeJwt_mkJwt userId _ _, by decide, fun st req db3 => rfl⟩
  · intro r db2 h
    unfold signup at h
    cases hval : validateSignup raw with
    | none => simp only [hval] at h; simp at h
    | some input =>
      simp only [hval] at h
      unfold signupCore at h
      cases hfind : db.users.find? (fun u => u.email == input.email) with
      | some u => simp only [hfind] at h; simp at h
      | none =>
        simp only [hfind] at h
        simp only [Prod.mk.injEq, Except.ok.injEq] at h
        obtain ⟨h1, -⟩ := h
        rw [← h1]
  · intro r db2 h
    unfold login at h
    by_cases hv : validateLogin email
    · rw [if_pos hv] at h
      cases hfind : db.users.find? (fun u => u.email == email) with
      | none => simp only [hfind] at h; simp at h
      | some u =>
        simp only [hfind] at h
        by_cases hc : bcryptCompare password u.password
        · rw [if_pos hc] at h
          simp only [Prod.mk.injEq, Except.ok.injEq] at h
          obtain ⟨h1, -⟩ := h
          rw [← h1]
        · rw [if_neg hc] at h
          simp at h
    · rw [if_neg hv] at h
      simp at h

/-- Witness for C7: concrete successful signup and login responses set
the session cookie for their tokens, and the cookie parses with
Max-Age 604800. -/
theorem session_cookie_attributes_witness :
    ({ user := stripBoth (signupNewUser exInput2 exDb1 0 0),
       sessionToken := generateSecureToken ⟨none⟩ 0 2,
       setCookie := sessionCookieSet (generateSecureToken ⟨none⟩ 0 2) }
        : AuthResult).setCookie
      = sessionCookieSet (generateSecureToken ⟨none⟩ 0 2)
    ∧ ({ user := stripPasswordOnly exUser1,
         sessionToken := generateSecureToken ⟨none⟩ 0 1,
         setCookie := sessionCookieSet (generateSecureToken ⟨none⟩ 0 1) }
          : AuthResult).setCookie
        = sessionCookieSet (generateSecureToken ⟨none⟩ 0 1)
    ∧ setCookieMaxAge (sessionCookieSet (generateSecureToken ⟨none⟩ 0 1))
        = some 604800 := by
  have h := session_cookie_attributes ⟨none⟩ 0 0 0 1 exRaw2 "a@b.co"
    "password1" exDb1
  exact ⟨h.1 _ _ rfl, h.2.1 _ _ rfl, h.2.2.2.1⟩

/-- C8: logout, given a session token through either transport shape —
the pre-parsed cookie mapping or the raw `; `-separated header parsed
manually at the equals sign — deletes exactly the session rows whose
token field equals that token string and leaves all other rows and the
user store unchanged; issued tokens satisfy the shape assumptions
(non-empty, no semicolon, no equals sign). -/
theorem logout_deletes_exact_token
    (t : String) (db : DB) (jar : List (String × String))
    (hdr : Option String) (env : Env) (nowMs userId : Nat) :
    (jar.lookup "session" = some t → t ≠ "" →
        (logout false ⟨some jar, hdr⟩ db).2.sessions
            = db.sessions.filter (fun s => s.token != t)
          ∧ (logout false ⟨some jar, hdr⟩ db).2.users = db.users)
    ∧ ((∀ c ∈ t.data, c ≠ ';') → (∀ c ∈ t.data, c ≠ '=') → t ≠ "" →
        (logout false ⟨none, some ("session=" ++ t)⟩ db).2.sessions
            = db.sessions.filter (fun s => s.token != t)
          ∧ (logout false ⟨none, some ("session=" ++ t)⟩ db).2.users
            = db.users)
    ∧ (generateSecureToken env nowMs userId ≠ ""
        ∧ (∀ c ∈ (generateSecureToken env nowMs userId).data, c ≠ ';')
        ∧ (∀ c ∈ (generateSecureToken env nowMs userId).data, c ≠ '=')) := by
  refine ⟨?_, ?_, mkJwt_ne_empty userId _ _,
    generateSecureToken_no_semi env nowMs userId,
    generateSecureToken_no_eq env nowMs userId⟩
  · intro hl hne
    have he : extractLogoutToken ⟨some jar, hdr⟩ = some t := hl
    constructor <;> simp [logout, he, hne, deleteSessionByToken]
  · intro hsem heq hne
    have hd : ("session=" ++ t).data = "session=".data ++ t.data :=
      String.data_append _ _
    have hs : splitSemiSp (("session=" ++ t).data)
        = [("session=" ++ t).data] := by
      apply splitSemiSp_no_semi
      intro c hc
      rw [hd] at hc
      rcases List.mem_append.mp hc with h | h
      · have hall : ∀ x ∈ "session=".data, x ≠ ';' := by decide
        exact hall c h
      · exact hsem c h
    have hp : hasPre "session=".data (("session=" ++ t).data) = true := by
      rw [hd]
      exact hasPre_append _ _
    have hsplit : splitCh '=' (("session=" ++ t).data)
        = ["session".data, t.data] := by
      rw [show ("session=" ++ t).data = "session".data ++ '=' :: t.data
        from rfl]
      rw [splitCh_append '=' _ _ (by decide), splitCh_no_sep '=' _ heq]
    have he : extractLogoutToken ⟨none, some ("session=" ++ t)⟩ = some t := by
      show (match (splitSemiSp ("session=" ++ t).data).find?
            (fun c => hasPre "session=".data c) with
          | some sc => ((splitCh '=' sc)[1]?).map String.mk
          | none => none) = some t
      rw [hs]
      simp only [List.find?, hp]
      rw [hsplit]
      rfl
    constructor <;> simp [logout, he, hne, deleteSessionByToken]

/-- Witness for C8: both transport shapes delete exactly the row with
the carried token at a concrete store. -/
theorem logout_deletes_exact_token_witness :
    (logout false ⟨some [("session", "42")], none⟩ exDb2).2.sessions
        = [{ userId := 2, token := "99", expiresAt := 5 }]
      ∧ (logout false ⟨none, some ("session=" ++ "42")⟩ exDb2).2.sessions
        = [{ userId := 2, token := "99", expiresAt := 5 }] := by
  have h := logout_deletes_exact_token "42" exDb2 [("session", "42")] none
    ⟨none⟩ 0 1
  have h1 := (h.1 (by decide) (by decide)).1
  have h2 := (h.2.1 (by decide) (by decide) (by decide)).1
  constructor
  · rw [h1]
    decide
  · rw [h2]
    decide

/-- C9 counterexample: two runs of the hasher on the same secret and
cost factor, when the per-call random salts differ, produce different
digests — the hasher is not a function of secret and cost alone. -/
theorem bcryptHash_not_function_of_secret_cost :
    bcryptHash "hunter2!" 10 0 ≠ bcryptHash "hunter2!" 10 1 := by decide

/-- C9 (amended): the hasher has no side effects and is a pure function
of secret, cost factor and the per-call salt: two runs agree exactly
when they drew the same salt, and verification accepts the hashed
secret whatever the salt was. -/
theorem bcryptHash_deterministic_given_salt (s : String) (c k k' : Nat) :
    (bcryptHash s c k = bcryptHash s c k' ↔ k = k')
      ∧ bcryptCompare s (bcryptHash s c k) = true := by
  constructor
  · constructor
    · intro h
      have h2 := h
      simp only [bcryptHash, HashedSecret.mk.injEq] at h2
      exact h2.2.2
    · rintro rfl
      rfl
  · simp [bcryptCompare, bcryptHash]

/-- Witness for the amended C9 at a concrete secret, cost and salt. -/
theorem bcryptHash_deterministic_given_salt_witness :
    (bcryptHash "password1" 10 3 = bcryptHash "password1" 10 3
        ↔ (3 : Nat) = 3)
      ∧ bcryptCompare "password1" (bcryptHash "password1" 10 3) = true :=
  bcryptHash_deterministic_given_salt "password1" 10 3 3

/-- C10: a successful login returns the user payload with only the
password field set to undefined; the stored ssn hash is carried into
the response unchanged, unlike signup, which strips it. -/
theorem login_returns_ssn_hash
    (env : Env) (nowMs : Nat) (email password : String) (db : DB) (u : User)
    (hv : validateLogin email = true)
    (hfind : db.users.find? (fun x => x.email == email) = some u)
    (hpw : bcryptCompare password u.password = true) :
    ∃ db2, login env nowMs email password db
        = (.ok { user := stripPasswordOnly u,
                 sessionToken := generateSecureToken env nowMs u.id,
                 setCookie := sessionCookieSet
                   (generateSecureToken env nowMs u.id) }, db2)
      ∧ (stripPasswordOnly u).ssn = some u.ssn
      ∧ (stripPasswordOnly u).password = none
      ∧ (stripBoth u).ssn = none := by
  refine ⟨(createActiveSession env nowMs u.id db).2, ?_, rfl, rfl, rfl⟩
  unfold login
  rw [if_pos hv]
  simp only [hfind]
  rw [if_pos hpw]
  rfl

/-- Witness for C10 at a concrete store and login. -/
theorem login_returns_ssn_hash_witness :
    ∃ db2, login ⟨none⟩ 0 "a@b.co" "password1" exDb1
        = (.ok { user := stripPasswordOnly exUser1,
                 sessionToken := generateSecureToken ⟨none⟩ 0 1,
                 setCookie := sessionCookieSet
                   (generateSecureToken ⟨none⟩ 0 1) }, db2)
      ∧ (stripPasswordOnly exUser1).ssn = some exUser1.ssn
      ∧ (stripPasswordOnly exUser1).password = none
      ∧ (stripBoth exUser1).ssn = none :=
  login_returns_ssn_hash ⟨none⟩ 0 "a@b.co" "password1" exDb1 exUser1
    (by decide) (by decide) (by decide)

